import Mathlib

/-!
Shallow embedding of the WebSocket server plugin core (src/src/lib.rs).

The plugin is a Tokio-based WebSocket server.  We embed its observable
behaviour as pure Lean functions over an explicit server state together
with an event trace:

* the `HashMap<String, ClientInfo>` client registry is modelled as an
  association list (iteration order of the hash map is modelled as list
  order);
* a client's outbound sink (`SplitSink` behind an `Arc<Mutex<..>>`) is
  modelled by two oracles keyed by client id: `contended : String → Bool`
  tells whether `try_lock` on that client's sender would fail right now,
  and `writeRes : String → Option String` gives the outcome of a socket
  write to that client (`none` = `Ok`, `some e` = `Err(e)`);
* every lock acquisition/release on the registry mutex and on a client's
  sender mutex, every socket write, every `send_message_to_frontend`
  notification, every `refresh_ui`, every log line and every sleep is
  recorded as an `Event` in the order the Rust code performs it, so that
  lock-discipline properties are statements about traces.
-/

namespace WsPlugin

/-- WebSocket frame, after `tokio_tungstenite::tungstenite::Message`.
The `Frame` raw variant never reaches the plugin code and is omitted;
payloads that the plugin never inspects are simplified (`binary` keeps
its byte list, `close` keeps only whether a close frame payload exists,
modelled as an optional reason string). -/
inductive Message where
  | text (s : String)
  | binary (data : List Nat)
  | ping (data : List Nat)
  | pong (data : List Nat)
  | close (frame : Option String)
  deriving DecidableEq

/-- `ClientInfo` from the source, minus the `sender` handle (the sender
mutex and socket are modelled by the `contended` / `writeRes` oracles). -/
structure ClientInfo where
  id : String
  addr : String
  deriving DecidableEq

/-- Observable actions of the plugin, in program order. -/
inductive Event where
  | lockRegistry
  | unlockRegistry
  | tryLockSender (id : String) (acquired : Bool)
  | lockSender (id : String)
  | unlockSender (id : String)
  | socketSend (id : String) (msg : Message) (result : Option String)
  | notifyFrontend (text : String)
  | refreshUi
  | logInfo (text : String)
  | logWarn (text : String)
  | abortHandle
  | sleepMs (ms : Nat)
  | spawnHandler (addr : String)
  deriving DecidableEq

/-- Mutable fields of `WebSocketServerPlugin` (the runtime handle itself
is the execution context and carries no modelled state; the task handle
is modelled by its presence). -/
structure ServerState where
  server_running : Bool
  server_address : String
  server_port : String
  clients : List (String × ClientInfo)
  selected_client : Option String
  server_handle : Option Unit
  deriving DecidableEq

/-- `WebSocketServerPlugin::new()`. -/
def newPlugin : ServerState :=
  { server_running := false
    server_address := "127.0.0.1"
    server_port := "8080"
    clients := []
    selected_client := none
    server_handle := none }

/-- `clients.get(client_id)` on the association-list registry. -/
def lookupClient (clients : List (String × ClientInfo)) (cid : String) :
    Option ClientInfo :=
  (clients.find? (fun c => c.1 == cid)).map Prod.snd

/-- `clients.insert(id, info)` (replace semantics of `HashMap::insert`). -/
def insertClient (clients : List (String × ClientInfo)) (cid : String)
    (info : ClientInfo) : List (String × ClientInfo) :=
  (cid, info) :: clients.filter (fun c => !(c.1 == cid))

/-- `clients.remove(&id)` (tolerates the id being absent). -/
def removeClient (clients : List (String × ClientInfo)) (cid : String) :
    List (String × ClientInfo) :=
  clients.filter (fun c => !(c.1 == cid))

/-- The per-client body of the loop in `stop_server` step 3: `try_lock`
the sender; on success send `Message::Close(None)` (result discarded)
and log; on failure skip the client. -/
def stopCloseLoop (contended : String → Bool) (writeRes : String → Option String) :
    List (String × ClientInfo) → List Event
  | [] => []
  | c :: rest =>
      if contended c.1 then
        Event.tryLockSender c.1 false :: stopCloseLoop contended writeRes rest
      else
        Event.tryLockSender c.1 true ::
        Event.socketSend c.1 (Message.close none) (writeRes c.1) ::
        Event.unlockSender c.1 ::
        Event.logInfo ("Sent close message to client: " ++ c.1) ::
        stopCloseLoop contended writeRes rest

/-- `WebSocketServerPlugin::stop_server`: set the stop flag, abort the
server task if present, best-effort close every client whose sender
mutex is immediately available, clear the registry, sleep, notify. -/
def stop_server (st : ServerState) (contended : String → Bool)
    (writeRes : String → Option String) : ServerState × List Event :=
  let st1 := { st with server_running := false }
  let abortPart : ServerState × List Event :=
    match st1.server_handle with
    | some _ =>
        ({ st1 with server_handle := none },
         [Event.logInfo "Aborting server task...", Event.abortHandle,
          Event.sleepMs 100])
    | none => (st1, [])
  let st2 := abortPart.1
  let closeEvents :=
    Event.lockRegistry ::
    Event.logInfo ("Disconnecting " ++ toString st2.clients.length ++ " clients...") ::
    stopCloseLoop contended writeRes st2.clients ++ [Event.unlockRegistry]
  let st3 := { st2 with clients := [] }
  (st3,
   Event.logInfo "Stopping WebSocket server..." ::
   abortPart.2 ++ closeEvents ++
   [Event.sleepMs 200,
    Event.notifyFrontend "WebSocket 服务器已完全停止",
    Event.refreshUi,
    Event.logInfo "WebSocket server completely stopped"])

/-- `WebSocketServerPlugin::send_message_to_client`: lock the registry,
look up the client; if present, lock its sender and write a text frame,
returning `Ok` or `Err("发送失败: " ++ e)`; if absent return
`Err("客户端不存在")`.  Both guards drop at function end, sender first. -/
def send_message_to_client (st : ServerState) (writeRes : String → Option String)
    (client_id message : String) :
    Except String Unit × ServerState × List Event :=
  match lookupClient st.clients client_id with
  | some _ =>
      match writeRes client_id with
      | none =>
          (Except.ok (), st,
           [Event.lockRegistry,
            Event.lockSender client_id,
            Event.socketSend client_id (Message.text message) none,
            Event.logInfo ("Message sent to client " ++ client_id ++ ": " ++ message),
            Event.unlockSender client_id,
            Event.unlockRegistry])
      | some e =>
          (Except.error ("发送失败: " ++ e), st,
           [Event.lockRegistry,
            Event.lockSender client_id,
            Event.socketSend client_id (Message.text message) (some e),
            Event.logWarn ("Failed to send message to client " ++ client_id ++ ": " ++ e),
            Event.unlockSender client_id,
            Event.unlockRegistry])
  | none =>
      (Except.error "客户端不存在", st,
       [Event.lockRegistry, Event.unlockRegistry])

/-- The `for (client_id, client) in clients.iter()` loop of
`broadcast_message`: lock each sender in turn, write the text frame,
and push a formatted entry onto `errors` when the write fails.
Returns (events, errors) in iteration order. -/
def broadcastLoop (writeRes : String → Option String) (message : String) :
    List (String × ClientInfo) → List Event × List String
  | [] => ([], [])
  | c :: rest =>
      let tailRes := broadcastLoop writeRes message rest
      match writeRes c.1 with
      | none =>
          (Event.lockSender c.1 ::
           Event.socketSend c.1 (Message.text message) none ::
           Event.unlockSender c.1 :: tailRes.1,
           tailRes.2)
      | some e =>
          (Event.lockSender c.1 ::
           Event.socketSend c.1 (Message.text message) (some e) ::
           Event.unlockSender c.1 :: tailRes.1,
           ("客户端 " ++ c.1 ++ ": " ++ e) :: tailRes.2)

/-- `WebSocketServerPlugin::broadcast_message`: lock the registry, try
every client, return `Ok` when `errors` stayed empty and otherwise
`Err("部分发送失败: " ++ errors.join(", "))`.  The registry guard drops
at function end. -/
def broadcast_message (st : ServerState) (writeRes : String → Option String)
    (message : String) : Except String Unit × ServerState × List Event :=
  let loopRes := broadcastLoop writeRes message st.clients
  if loopRes.2.isEmpty then
    (Except.ok (), st,
     Event.lockRegistry :: loopRes.1 ++
     [Event.logInfo ("Message broadcasted to " ++ toString st.clients.length ++
        " clients: " ++ message),
      Event.unlockRegistry])
  else
    (Except.error ("部分发送失败: " ++ String.intercalate ", " loopRes.2), st,
     Event.lockRegistry :: loopRes.1 ++ [Event.unlockRegistry])

/-- The `while let Some(msg) = ws_receiver.next().await` receive loop of
`handle_client`: a text frame is logged and forwarded to the host as
"[id] text"; a close frame or a transport error breaks the loop; binary,
ping and pong frames hit the `_ => {}` arm. -/
def recvLoop (client_id : String) :
    List (Except String Message) → List Event
  | [] => []
  | Except.ok (Message.text t) :: rest =>
      Event.logInfo ("Received message from " ++ client_id ++ ": " ++ t) ::
      Event.notifyFrontend ("[" ++ client_id ++ "] " ++ t) ::
      recvLoop client_id rest
  | Except.ok (Message.binary _) :: rest => recvLoop client_id rest
  | Except.ok (Message.ping _) :: rest => recvLoop client_id rest
  | Except.ok (Message.pong _) :: rest => recvLoop client_id rest
  | Except.ok (Message.close _) :: _ =>
      [Event.logInfo ("Client " ++ client_id ++ " disconnected")]
  | Except.error e :: _ =>
      [Event.logWarn ("WebSocket error for client " ++ client_id ++ ": " ++ e)]

/-- `WebSocketServerPlugin::handle_client`: on handshake success generate
a fresh id (`freshId` stands for `Uuid::new_v4()`), register the client,
notify the host, run the receive loop, then deregister and notify; on
handshake failure only log a warning.  Takes and returns the registry
contents; `inbound` is the stream of frames the receiver yields. -/
def handle_client (handshake : Except String Unit) (addr : String)
    (freshId : String) (clients : List (String × ClientInfo))
    (inbound : List (Except String Message)) :
    List (String × ClientInfo) × List Event :=
  match handshake with
  | Except.ok _ =>
      let client_id := freshId
      let info : ClientInfo := { id := client_id, addr := addr }
      let clients1 := insertClient clients client_id info
      let clients2 := removeClient clients1 client_id
      (clients2,
       Event.logInfo ("WebSocket connection established with client: " ++
          client_id ++ " (" ++ addr ++ ")") ::
       Event.lockRegistry :: Event.unlockRegistry ::
       Event.notifyFrontend ("客户端已连接: " ++ client_id ++ " (" ++ addr ++ ")") ::
       Event.refreshUi ::
       recvLoop client_id inbound ++
       [Event.lockRegistry, Event.unlockRegistry,
        Event.notifyFrontend ("客户端已断开: " ++ client_id ++ " (" ++ addr ++ ")"),
        Event.refreshUi])
  | Except.error e =>
      (clients,
       [Event.logWarn ("WebSocket handshake failed for " ++ addr ++ ": " ++ e)])

/-- One observed iteration of the accept loop in `start_server`: the
`Bool` is the value of `server_running` read at the top of the iteration
(it can be flipped concurrently by `stop_server`), the outcome is what
`tokio::select!` produced. -/
inductive AcceptOutcome where
  | conn (addr : String)
  | acceptErr (e : String)
  | timeout
  deriving DecidableEq

/-- The `loop { .. }` of `start_server`: break when the stop flag reads
false; on a new connection spawn a handler task and continue; on an
accept error break; on the 100ms timeout re-check and continue. -/
def acceptLoop : List (Bool × AcceptOutcome) → List Event
  | [] => []
  | (false, _) :: _ =>
      [Event.logInfo "Server stop flag detected, breaking accept loop"]
  | (true, AcceptOutcome.conn a) :: rest =>
      Event.logInfo ("New connection from: " ++ a) ::
      Event.spawnHandler a :: acceptLoop rest
  | (true, AcceptOutcome.acceptErr e) :: _ =>
      [Event.logWarn ("Failed to accept connection: " ++ e)]
  | (true, AcceptOutcome.timeout) :: rest => acceptLoop rest

/-- `WebSocketServerPlugin::start_server`: bind the listener; on success
set `server_running := true`, notify the host and run the accept loop;
on a bind error only log and report the failure to the host.  `bind` is
the outcome of `TcpListener::bind`, `script` the observed accept-loop
iterations. -/
def start_server (st : ServerState) (bind : Except String Unit)
    (script : List (Bool × AcceptOutcome)) : ServerState × List Event :=
  let addr := st.server_address ++ ":" ++ st.server_port
  match bind with
  | Except.ok _ =>
      ({ st with server_running := true },
       Event.logInfo ("Starting WebSocket server on " ++ addr) ::
       Event.notifyFrontend ("WebSocket 服务器已启动，监听地址: " ++ addr) ::
       Event.refreshUi ::
       acceptLoop script ++
       [Event.logInfo "WebSocket server accept loop ended",
        Event.notifyFrontend "WebSocket 服务器接受循环已结束"])
  | Except.error e =>
      (st,
       [Event.logInfo ("Starting WebSocket server on " ++ addr),
        Event.logWarn ("Failed to bind to " ++ addr ++ ": " ++ e),
        Event.notifyFrontend ("启动服务器失败: " ++ e)])

/-! ## Trace observers -/

/-- The socket writes recorded in a trace: (client id, frame, outcome). -/
def sendEvents (tr : List Event) : List (String × Message × Option String) :=
  tr.filterMap (fun e =>
    match e with
    | Event.socketSend cid m r => some (cid, m, r)
    | _ => none)

/-- The frontend notifications recorded in a trace. -/
def notifications (tr : List Event) : List String :=
  tr.filterMap (fun e =>
    match e with
    | Event.notifyFrontend s => some s
    | _ => none)

/-- Whether an event is a socket write. -/
def isSend : Event → Bool
  | Event.socketSend _ _ _ => true
  | _ => false

/-! ## Concrete states used by witnesses and counterexamples -/

/-- A registered client used in concrete scenarios. -/
def exClientA : ClientInfo := { id := "a", addr := "10.0.0.1:4000" }

/-- A second registered client used in concrete scenarios. -/
def exClientB : ClientInfo := { id := "b", addr := "10.0.0.2:4001" }

/-- A server state with the single client "a" registered. -/
def exStateOne : ServerState := { newPlugin with clients := [("a", exClientA)] }

/-- A server state with clients "a" and "b" registered. -/
def exStateTwo : ServerState :=
  { newPlugin with clients := [("a", exClientA), ("b", exClientB)] }

/-- A write oracle under which the socket write to client "a" fails with
"boom" and every other write succeeds. -/
def exFailA : String → Option String :=
  fun s => if s == "a" then some "boom" else none

/-! ## Claims -/

/-- C3: unicast to an id absent from the registry returns the
client-not-found error, leaves the state (hence the registry and every
other client) unchanged, and performs no socket write: the trace is just
the registry lock and unlock. -/
theorem send_to_missing_client_not_found (st : ServerState)
    (writeRes : String → Option String) (cid msg : String)
    (h : lookupClient st.clients cid = none) :
    send_message_to_client st writeRes cid msg =
      (Except.error "客户端不存在", st,
       [Event.lockRegistry, Event.unlockRegistry]) := by
  unfold send_message_to_client
  rw [h]

/-- Witness for C3: unicast to the unregistered id "b" while "a" is
registered. -/
theorem send_to_missing_client_not_found_witness :
    send_message_to_client exStateOne (fun _ => none) "b" "hello" =
      (Except.error "客户端不存在", exStateOne,
       [Event.lockRegistry, Event.unlockRegistry]) :=
  send_to_missing_client_not_found exStateOne (fun _ => none) "b" "hello" (by decide)

/-- C9: when the socket write to a registered client fails, unicast
returns the write-failed error and the server state — in particular the
registry with the failing client still in it — is returned unchanged. -/
theorem send_write_failure_keeps_registry (st : ServerState)
    (writeRes : String → Option String) (cid msg e : String) (c : ClientInfo)
    (hfound : lookupClient st.clients cid = some c)
    (hfail : writeRes cid = some e) :
    (send_message_to_client st writeRes cid msg).1 =
        Except.error ("发送失败: " ++ e) ∧
    (send_message_to_client st writeRes cid msg).2.1 = st := by
  unfold send_message_to_client
  rw [hfound, hfail]
  exact ⟨rfl, rfl⟩

/-- Witness for C9: the write to registered client "a" fails with "boom";
the error is reported and the state is unchanged. -/
theorem send_write_failure_keeps_registry_witness :
    (send_message_to_client exStateOne exFailA "a" "msg").1 =
        Except.error ("发送失败: " ++ "boom") ∧
    (send_message_to_client exStateOne exFailA "a" "msg").2.1 = exStateOne :=
  send_write_failure_keeps_registry exStateOne exFailA "a" "msg" "boom" exClientA
    (by decide) (by decide)

/-- C10: broadcast on an empty registry performs no socket write,
collects no errors and returns Ok — the trace holds only the registry
lock, the success log line and the registry unlock. -/
theorem broadcast_empty_registry_ok (running : Bool) (addr port : String)
    (sel : Option String) (handle : Option Unit)
    (writeRes : String → Option String) (msg : String) :
    broadcast_message
        { server_running := running, server_address := addr, server_port := port,
          clients := [], selected_client := sel, server_handle := handle }
        writeRes msg =
      (Except.ok (),
       { server_running := running, server_address := addr, server_port := port,
         clients := [], selected_client := sel, server_handle := handle },
       [Event.lockRegistry,
        Event.logInfo ("Message broadcasted to " ++ toString (0 : Nat) ++
          " clients: " ++ msg),
        Event.unlockRegistry]) := by
  rfl

/-- C8: when the WebSocket handshake fails, `handle_client` returns the
registry unchanged, emits only a warning log — no registry insertion, no
use of the fresh id, no frontend notification — and the failure is
confined to that one connection. -/
theorem handshake_failure_no_effect (e addr freshId : String)
    (clients : List (String × ClientInfo))
    (inbound : List (Except String Message)) :
    handle_client (Except.error e) addr freshId clients inbound =
      (clients,
       [Event.logWarn ("WebSocket handshake failed for " ++ addr ++ ": " ++ e)]) ∧
    notifications (handle_client (Except.error e) addr freshId clients inbound).2
      = [] := by
  exact ⟨rfl, rfl⟩

/-- C6: when binding the listener fails, `start_server` returns the state
unchanged (so the running flag keeps its old value and the registry is
untouched), the only frontend notification is the bind-failure report,
and the accept loop is never entered: no handler is spawned and none of
the accept-loop events (not even the `refresh_ui` that precedes the loop
on the success path) appear in the trace. -/
theorem bind_failure_server_stays_stopped (st : ServerState) (e : String)
    (script : List (Bool × AcceptOutcome)) :
    (start_server st (Except.error e) script).1 = st ∧
    notifications (start_server st (Except.error e) script).2 =
      ["启动服务器失败: " ++ e] ∧
    (∀ a, Event.spawnHandler a ∉ (start_server st (Except.error e) script).2) ∧
    Event.refreshUi ∉ (start_server st (Except.error e) script).2 := by
  refine ⟨rfl, rfl, ?_, ?_⟩
  · intro a
    simp [start_server]
  · simp [start_server]

/-- Witness for C6: a concrete failed bind on the default address leaves
the fresh state untouched and spawns no handler. -/
theorem bind_failure_server_stays_stopped_witness :
    (start_server newPlugin (Except.error "Address already in use") []).1 =
        newPlugin ∧
    Event.spawnHandler "peer" ∉
      (start_server newPlugin (Except.error "Address already in use") []).2 :=
  ⟨(bind_failure_server_stays_stopped newPlugin "Address already in use" []).1,
   (bind_failure_server_stays_stopped newPlugin "Address already in use" []).2.2.1
     "peer"⟩

/-- The socket writes performed by the best-effort close loop of
`stop_server` are exactly one close frame per registered client whose
sender mutex was immediately available, in registry order. -/
theorem sendEvents_stopCloseLoop (contended : String → Bool)
    (writeRes : String → Option String) (cs : List (String × ClientInfo)) :
    sendEvents (stopCloseLoop contended writeRes cs) =
      (cs.filter (fun c => !(contended c.1))).map
        (fun c => (c.1, Message.close none, writeRes c.1)) := by
  induction cs with
  | nil => rfl
  | cons c rest ih =>
      cases h : contended c.1 <;>
        simp [stopCloseLoop, sendEvents, h, List.filterMap_cons] at ih ⊢ <;>
        exact ih

/-- C1: `stop_server` sends a close frame to exactly those registered
clients whose sender mutex is immediately available (in registry order,
skipping contended ones), then unconditionally clears the registry, so
the resulting state has no clients and the stop flag cleared, for any
number of connected clients. -/
theorem stop_sends_close_to_uncontended_and_clears (st : ServerState)
    (contended : String → Bool) (writeRes : String → Option String) :
    (stop_server st contended writeRes).1.clients = [] ∧
    (stop_server st contended writeRes).1.server_running = false ∧
    sendEvents (stop_server st contended writeRes).2 =
      (st.clients.filter (fun c => !(contended c.1))).map
        (fun c => (c.1, Message.close none, writeRes c.1)) := by
  unfold stop_server
  cases h : st.server_handle <;>
    simp [h, sendEvents, List.filterMap_append, List.filterMap_cons] <;>
    exact sendEvents_stopCloseLoop contended writeRes st.clients

/-- C4: invoking `stop_server` in the already-stopped state (stop flag
clear, no accept-loop task handle, empty registry) leaves the state
exactly as it was and still emits the shutdown-complete notification to
the host. -/
theorem stop_idempotent_when_stopped (st : ServerState)
    (contended : String → Bool) (writeRes : String → Option String)
    (hrun : st.server_running = false) (hhandle : st.server_handle = none)
    (hclients : st.clients = []) :
    (stop_server st contended writeRes).1 = st ∧
    Event.notifyFrontend "WebSocket 服务器已完全停止" ∈
      (stop_server st contended writeRes).2 := by
  obtain ⟨running, a, p, cl, sel, hd⟩ := st
  simp only at hrun hhandle hclients
  subst hrun hhandle hclients
  exact ⟨rfl, by simp [stop_server, stopCloseLoop]⟩

/-- Witness for C4: stopping the freshly constructed (never started)
plugin state changes nothing and still notifies completion. -/
theorem stop_idempotent_when_stopped_witness :
    (stop_server newPlugin (fun _ => false) (fun _ => none)).1 = newPlugin ∧
    Event.notifyFrontend "WebSocket 服务器已完全停止" ∈
      (stop_server newPlugin (fun _ => false) (fun _ => none)).2 :=
  stop_idempotent_when_stopped newPlugin (fun _ => false) (fun _ => none)
    rfl rfl rfl

/-- The error entries `broadcast_message` accumulates: one formatted
entry per failing client, in registry order. -/
def broadcastFailures (clients : List (String × ClientInfo))
    (writeRes : String → Option String) : List String :=
  clients.filterMap (fun c =>
    (writeRes c.1).map (fun e => "客户端 " ++ c.1 ++ ": " ++ e))

/-- The broadcast loop attempts one text-frame write per registered
client, in registry order, independently of which writes fail. -/
theorem sendEvents_broadcastLoop (writeRes : String → Option String)
    (message : String) (cs : List (String × ClientInfo)) :
    sendEvents (broadcastLoop writeRes message cs).1 =
      cs.map (fun c => (c.1, Message.text message, writeRes c.1)) := by
  induction cs with
  | nil => rfl
  | cons c rest ih =>
      cases h : writeRes c.1 <;>
        simp [broadcastLoop, sendEvents, h, List.filterMap_cons] at ih ⊢ <;>
        exact ih

/-- The errors collected by the broadcast loop are exactly the formatted
entries of the failing clients. -/
theorem errors_broadcastLoop (writeRes : String → Option String)
    (message : String) (cs : List (String × ClientInfo)) :
    (broadcastLoop writeRes message cs).2 = broadcastFailures cs writeRes := by
  induction cs with
  | nil => rfl
  | cons c rest ih =>
      cases h : writeRes c.1 <;>
        simp [broadcastLoop, broadcastFailures, h, List.filterMap_cons] at ih ⊢ <;>
        exact ih

/-- C2: broadcast attempts a write to every registered client
independently of failures elsewhere (the trace carries one text-frame
write per client), returns Ok when no client failed, and otherwise
returns the partial-delivery error listing exactly the failing clients. -/
theorem broadcast_attempts_all_and_reports_failures (st : ServerState)
    (writeRes : String → Option String) (message : String) :
    sendEvents (broadcast_message st writeRes message).2.2 =
      st.clients.map (fun c => (c.1, Message.text message, writeRes c.1)) ∧
    (broadcastFailures st.clients writeRes = [] →
      (broadcast_message st writeRes message).1 = Except.ok ()) ∧
    (broadcastFailures st.clients writeRes ≠ [] →
      (broadcast_message st writeRes message).1 =
        Except.error ("部分发送失败: " ++
          String.intercalate ", " (broadcastFailures st.clients writeRes))) := by
  simp only [broadcast_message, errors_broadcastLoop]
  cases hcs : broadcastFailures st.clients writeRes with
  | nil =>
      refine ⟨?_, fun _ => rfl, fun hne => absurd rfl hne⟩
      simp [sendEvents, List.filterMap_cons, List.filterMap_append]
      exact sendEvents_broadcastLoop writeRes message st.clients
  | cons a l =>
      refine ⟨?_, fun hh => absurd hh (List.cons_ne_nil a l), fun _ => rfl⟩
      simp [sendEvents, List.filterMap_cons, List.filterMap_append]
      exact sendEvents_broadcastLoop writeRes message st.clients

/-- Witness for C2: broadcasting to clients "a" and "b" where the write
to "a" fails reports the partial-delivery error naming exactly "a". -/
theorem broadcast_attempts_all_and_reports_failures_witness :
    (broadcast_message exStateTwo exFailA "hi").1 =
      Except.error ("部分发送失败: " ++
        String.intercalate ", " (broadcastFailures exStateTwo.clients exFailA)) :=
  (broadcast_attempts_all_and_reports_failures exStateTwo exFailA "hi").2.2
    (by decide)

/-- Whether an inbound item ends the receive loop: a close frame or a
transport error. -/
def isTerminator : Except String Message → Bool
  | Except.ok (Message.close _) => true
  | Except.error _ => true
  | _ => false

/-- The text payload of an inbound item, when it is a text frame. -/
def textPayload : Except String Message → Option String
  | Except.ok (Message.text t) => some t
  | _ => none

/-- C7: the receive loop forwards to the host exactly the text frames
preceding the first close frame or transport error, verbatim and tagged
with the client id; a close frame or an error ends the loop, so the
frames after it are never processed; every other frame kind (binary,
ping, pong) is skipped without forwarding and without ending the loop. -/
theorem recv_loop_forwards_text_until_close_or_error (cid : String)
    (msgs : List (Except String Message)) :
    notifications (recvLoop cid msgs) =
      ((msgs.takeWhile (fun m => !(isTerminator m))).filterMap textPayload).map
        (fun t => "[" ++ cid ++ "] " ++ t) ∧
    (∀ m rest, isTerminator m = true →
      recvLoop cid (m :: rest) = recvLoop cid [m]) ∧
    (∀ m rest, isTerminator m = false → textPayload m = none →
      recvLoop cid (m :: rest) = recvLoop cid rest) := by
  refine ⟨?_, ?_, ?_⟩
  · induction msgs with
    | nil => rfl
    | cons m rest ih =>
        rcases m with e | t | d | d | d | f <;>
          simp [recvLoop, notifications, isTerminator, textPayload,
            List.takeWhile, List.filterMap_cons] at ih ⊢ <;>
          exact ih
  · intro m rest h
    rcases m with e | t | d | d | d | f <;>
      simp [isTerminator] at h <;> rfl
  · intro m rest h hp
    rcases m with e | t | d | d | d | f <;>
      simp [isTerminator] at h <;>
      simp [textPayload] at hp <;> rfl

/-- Witness for C7: a close frame ends the loop, so a text frame queued
after it is never forwarded. -/
theorem recv_loop_forwards_text_witness :
    recvLoop "c" [Except.ok (Message.close none), Except.ok (Message.text "x")] =
      recvLoop "c" [Except.ok (Message.close none)] :=
  (recv_loop_forwards_text_until_close_or_error "c" []).2.1
    (Except.ok (Message.close none)) [Except.ok (Message.text "x")] rfl

/-- The lock discipline claimed by the spec for the send paths: every
socket write in the trace happens only after the registry guard has been
released. -/
def writesAfterRegistryRelease (tr : List Event) : Prop :=
  ∀ i : Fin tr.length, isSend (tr.get i) = true →
    ∃ j : Fin tr.length, (j : Nat) < (i : Nat) ∧
      tr.get j = Event.unlockRegistry

/-- The lock discipline the code actually follows on the send paths:
every socket write happens before every release of the registry guard,
i.e. while the registry guard is still held. -/
def writesBeforeRegistryRelease (tr : List Event) : Prop :=
  ∀ i j : Fin tr.length, isSend (tr.get i) = true →
    tr.get j = Event.unlockRegistry → (i : Nat) < (j : Nat)

/-- Counterexample to C5: in the unicast send path with one registered
client, the socket write is performed while the registry guard is still
held — it does not happen after the guard is released. -/
theorem unicast_write_not_after_registry_release :
    ¬ writesAfterRegistryRelease
        (send_message_to_client exStateOne (fun _ => none) "a" "m").2.2 := by
  unfold writesAfterRegistryRelease
  decide

/-- A trace whose only registry unlock is its final event keeps every
socket write under the registry guard. -/
theorem writesBefore_of_unlock_last (pre : List Event)
    (hpre : Event.unlockRegistry ∉ pre) :
    writesBeforeRegistryRelease (pre ++ [Event.unlockRegistry]) := by
  intro i j hsend hj
  have hi := i.isLt
  have hjlt := j.isLt
  simp only [List.length_append, List.length_singleton] at hi hjlt
  rcases Nat.lt_or_ge (j : Nat) pre.length with hlt | hge
  · exfalso
    apply hpre
    have hgj : (pre ++ [Event.unlockRegistry]).get j = pre.get ⟨j, hlt⟩ := by
      rw [List.get_eq_getElem, List.get_eq_getElem]
      exact List.getElem_append_left hlt
    rw [hgj] at hj
    rw [← hj]
    exact List.get_mem pre _ _
  · have hj' : (j : Nat) = pre.length := by omega
    rcases Nat.lt_or_ge (i : Nat) pre.length with hilt | hige
    · omega
    · exfalso
      have hi' : (i : Nat) = pre.length := by omega
      have hgi : (pre ++ [Event.unlockRegistry]).get i = Event.unlockRegistry := by
        rw [List.get_eq_getElem]
        rw [List.getElem_append_right hige]
        simp [hi']
      rw [hgi] at hsend
      simp [isSend] at hsend

/-- The broadcast loop never releases the registry guard. -/
theorem unlockRegistry_not_in_broadcastLoop (writeRes : String → Option String)
    (message : String) (cs : List (String × ClientInfo)) :
    Event.unlockRegistry ∉ (broadcastLoop writeRes message cs).1 := by
  induction cs with
  | nil => simp [broadcastLoop]
  | cons c rest ih =>
      cases h : writeRes c.1 <;> simp [broadcastLoop, h] <;> exact ih

/-- C5 (amended): in both outbound send paths the write does go through
the client's per-client sender lock, but it is performed while the
registry guard is still held — the guard is released only after the
writes, not before them. -/
theorem outbound_writes_happen_under_registry_guard (st : ServerState)
    (writeRes : String → Option String) (cid msg bmsg : String) :
    writesBeforeRegistryRelease
      (send_message_to_client st writeRes cid msg).2.2 ∧
    writesBeforeRegistryRelease
      (broadcast_message st writeRes bmsg).2.2 := by
  constructor
  · unfold send_message_to_client
    cases lookupClient st.clients cid with
    | none => exact writesBefore_of_unlock_last [Event.lockRegistry] (by simp)
    | some c =>
        cases writeRes cid with
        | none =>
            exact writesBefore_of_unlock_last
              [Event.lockRegistry, Event.lockSender cid,
               Event.socketSend cid (Message.text msg) none,
               Event.logInfo ("Message sent to client " ++ cid ++ ": " ++ msg),
               Event.unlockSender cid] (by simp)
        | some e =>
            exact writesBefore_of_unlock_last
              [Event.lockRegistry, Event.lockSender cid,
               Event.socketSend cid (Message.text msg) (some e),
               Event.logWarn ("Failed to send message to client " ++ cid ++ ": " ++ e),
               Event.unlockSender cid] (by simp)
  · simp only [broadcast_message]
    split
    · have hsplit :
          Event.lockRegistry :: (broadcastLoop writeRes bmsg st.clients).1 ++
            [Event.logInfo ("Message broadcasted to " ++ toString st.clients.length ++
               " clients: " ++ bmsg),
             Event.unlockRegistry] =
          (Event.lockRegistry :: (broadcastLoop writeRes bmsg st.clients).1 ++
            [Event.logInfo ("Message broadcasted to " ++ toString st.clients.length ++
               " clients: " ++ bmsg)]) ++ [Event.unlockRegistry] := by
        simp
      rw [hsplit]
      refine writesBefore_of_unlock_last _ ?_
      simp [unlockRegistry_not_in_broadcastLoop]
    · have hsplit :
          Event.lockRegistry :: (broadcastLoop writeRes bmsg st.clients).1 ++
            [Event.unlockRegistry] =
          (Event.lockRegistry :: (broadcastLoop writeRes bmsg st.clients).1) ++
            [Event.unlockRegistry] := by
        simp
      rw [hsplit]
      refine writesBefore_of_unlock_last _ ?_
      simp [unlockRegistry_not_in_broadcastLoop]

/-- Witness for C5 (amended): the concrete broadcast to clients "a" and
"b" keeps its writes under the registry guard. -/
theorem outbound_writes_happen_under_registry_guard_witness :
    writesBeforeRegistryRelease
      (broadcast_message exStateTwo exFailA "hi").2.2 :=
  (outbound_writes_happen_under_registry_guard exStateTwo exFailA "a" "m" "hi").2

end WsPlugin
